import Mathlib

/-!
Shallow embedding of `DSSATTools/weather.py` (the `Weather` class: its
constructor-time validation pipeline and its `write` method), together with
theorems settling the specification claims about it.

Modelling conventions:
* a pandas `DataFrame` is a (possibly datetime-typed) row index together with
  an ordered list of named columns; every column is either numeric (cells are
  `Option ℚ`, `none` standing for a missing value / `NaN`) or datetime-typed
  (cells are calendar dates);
* pandas comparisons involving `NaN` yield `False`, which is what makes the
  quality-control checks reject missing values: this is reflected in `valLE`,
  `rainCell`, `rhumCell` below;
* a Python `assert` failure or raised exception is an `Except.error` carrying a
  `BuildError` describing the failure, mirroring the error taxonomy of the
  module (invalid variable name, missing mandatory variable, quality control,
  missing date column, plus the `KeyError` / `TypeError` that pandas itself
  raises on a missing column lookup or on comparing a datetime column with a
  number);
* Python strings manipulated by the code (`INSI`, filenames) are `List Char`;
  `str(year)` is `Nat.toDigits 10 year`, slicing is `List.take`/`List.drop`
  and `.upper()` is `List.map Char.toUpper`.
-/

namespace DSSAT

/-- A calendar date (the part of a pandas `Timestamp` the module uses: the
weather index carries dates at midnight, and comparisons / `.year` accesses
only ever look at year, month and day). -/
structure Date where
  year : Nat
  month : Nat
  day : Nat
deriving DecidableEq, Repr

instance : Inhabited Date := ⟨⟨0, 0, 0⟩⟩

/-- Chronological comparison of dates (lexicographic on year, month, day),
the order used by pandas when comparing datetime values. -/
def Date.le (a b : Date) : Bool :=
  Nat.blt a.year b.year ||
    (a.year == b.year &&
      (Nat.blt a.month b.month || (a.month == b.month && Nat.ble a.day b.day)))

/-- A cell of a row, as extracted by `iterrows`: either a numeric value
(possibly missing) or a datetime value. -/
inductive Cell where
  | num (v : Option ℚ)
  | date (d : Date)
deriving DecidableEq, Repr

/-- The values of one column, tagged by its dtype: a numeric column holds
possibly-missing rationals, a datetime-typed column holds dates. -/
inductive ColData where
  | nums (vs : List (Option ℚ))
  | dates (vs : List Date)
deriving DecidableEq, Repr

/-- Number of entries of a column. -/
def ColData.length : ColData → Nat
  | .nums vs => vs.length
  | .dates vs => vs.length

/-- `pd.api.types.is_datetime64_any_dtype` on a column. -/
def ColData.isDatetime : ColData → Bool
  | .nums _ => false
  | .dates _ => true

/-- The row index of a frame: either datetime-typed (a list of dates) or a
plain (range-like) index, of which only the length matters here. -/
inductive Index where
  | dates (l : List Date)
  | plain (n : Nat)
deriving DecidableEq, Repr

/-- `pd.api.types.is_datetime64_any_dtype` on the index. -/
def Index.isDatetime : Index → Bool
  | .dates _ => true
  | .plain _ => false

/-- A pandas `DataFrame` as used by the module: a row index and an ordered
list of named columns. -/
structure DataFrame where
  index : Index
  cols : List (String × ColData)
deriving DecidableEq, Repr

instance : Inhabited DataFrame := ⟨⟨.plain 0, []⟩⟩

/-- `df.columns` (the column names, in order). -/
def DataFrame.columns (df : DataFrame) : List String := df.cols.map (·.1)

/-- `name in df.columns`. -/
def DataFrame.hasCol (df : DataFrame) (name : String) : Bool :=
  df.cols.any (·.1 == name)

/-- `df[name]` as a lookup (first column with that name, if any). -/
def DataFrame.getCol (df : DataFrame) (name : String) : Option ColData :=
  (df.cols.find? (·.1 == name)).map (·.2)

/-- `df[name] = values`: replaces the column in place if the label exists,
otherwise appends a new column at the end (pandas column assignment). -/
def DataFrame.setCol (df : DataFrame) (name : String) (cd : ColData) : DataFrame :=
  if df.hasCol name then
    ⟨df.index, df.cols.map (fun c => if c.1 == name then (name, cd) else c)⟩
  else
    ⟨df.index, df.cols ++ [(name, cd)]⟩

/-- `df.drop(columns=[name])`: removes every column with that label. -/
def DataFrame.dropCol (df : DataFrame) (name : String) : DataFrame :=
  ⟨df.index, df.cols.filter (fun c => ¬ c.1 == name)⟩

/-- `df.set_index(name, inplace=True)` for a datetime-typed column `name`:
the column's dates become the row index and the column disappears from the
plain columns. (Only ever called on a datetime-typed column.) -/
def DataFrame.setIndex (df : DataFrame) (name : String) : DataFrame :=
  match df.getCol name with
  | some (.dates vs) => ⟨.dates vs, df.cols.filter (fun c => ¬ c.1 == name)⟩
  | _ => df

/-- `df.copy()`. In this value-based model a copy is the value itself; the
store-based model below (`Weather.buildIn`) is where copying is visible. -/
def DataFrame.copy (df : DataFrame) : DataFrame := df

/-- The dates of the row index (`df.index` when datetime-typed). -/
def DataFrame.indexDates (df : DataFrame) : List Date :=
  match df.index with
  | .dates l => l
  | .plain _ => []

/-! ## Parameter catalog (module-level constants of `weather.py`) -/

/-- `PARS_DESC`: the registry of recognized parameter names with their
descriptions, in declaration order. -/
def PARS_DESC : List (String × String) :=
  [("INSI", "Institute and site code"),
   ("LAT", "Latitude, degrees (decimals)"),
   ("LONG", "Longitude, degrees (decimals)"),
   ("ELEV", "Elevation, m"),
   ("TAV", "Temperature average for whole year [long-term], C"),
   ("AMP", "Temperature amplitude (range), monthly averages [long-term], C"),
   ("REFHT", "Reference height for weather measurements, m"),
   ("WNDHT", "Reference height for windspeed measurements, m"),
   ("DATE", "Date, year + days from Jan. 1"),
   ("SRAD", "Daily solar radiation, MJ m-2 day-1"),
   ("TMAX", "Daily temperature maximum, C"),
   ("TMIN", "Daily temperature minimum, C"),
   ("RAIN", "Daily rainfall (incl. snow), mm day-1"),
   ("DEWP", "Daily dewpoint temperature average, C"),
   ("WIND", "Daily wind speed (km d-1)"),
   ("PAR", "Daily photosynthetic radiation, moles m-2 day-1"),
   ("EVAP", "Daily pan evaporation (mm d-1)"),
   ("RHUM", "Relative humidity average, %")]

/-- `PARS_STATION`: the station-parameter names. -/
def PARS_STATION : List String :=
  ["INSI", "LAT", "LONG", "ELEV", "TAV", "AMP", "REFHT", "WNDHT"]

/-- `PARS_DATA = [i for i in PARS_DESC.keys() if i not in PARS_STATION]`. -/
def PARS_DATA : List String :=
  (PARS_DESC.map (·.1)).filter (fun k => ¬ PARS_STATION.contains k)

/-- `MANDATORY_DATA = ['TMIN', 'TMAX', 'RAIN', 'SRAD']`. -/
def MANDATORY_DATA : List String := ["TMIN", "TMAX", "RAIN", "SRAD"]

/-! ## Errors raised by `Weather.__init__`

Each Python `assert` (and each exception pandas raises on the paths the
constructor exercises) becomes one constructor of `BuildError`.  The spec
groups the four quality-control assertions under `QualityControlError`; the
carried string is the assert's message, naming the violated rule. -/

/-- The failures `Weather.__init__` can surface. -/
inductive BuildError where
  /-- `assert value in PARS_DATA, f'{value} is not a valid variable name'`. -/
  | invalidVariableName (value : String)
  /-- pandas `KeyError`: a mapping source is not a column of the table. -/
  | keyError (key : String)
  /-- `assert all(... MANDATORY_DATA ...)`: the carried list is the list of
  names appearing in the assert's message. -/
  | missingMandatory (names : List String)
  /-- one of the four QC `assert`s, carrying the assert's message. -/
  | qualityControl (rule : String)
  /-- pandas `TypeError`: a QC comparison applied to a datetime-typed column. -/
  | typeError
  /-- `assert DATE_COL, 'At least one of the data columns must be a date'`. -/
  | missingDate
deriving DecidableEq, Repr

/-! ## The constructor pipeline (`Weather.__init__`, lines 119-159) -/

/-- The column-mapping loop (lines 121-126): for each `(key, value)` pair of
`pars`, assert `value` is a recognized data parameter; when `key` is not
itself a canonical name, copy `data[key]` into `data[value]` and drop `key`. -/
def applyPars (data : DataFrame) : List (String × String) → Except BuildError DataFrame
  | [] => .ok data
  | (key, value) :: rest =>
    if value ∈ PARS_DATA then
      if key ∈ PARS_DATA then
        applyPars data rest
      else
        match data.getCol key with
        | none => .error (.keyError key)
        | some cd => applyPars ((data.setCol value cd).dropCol key) rest
    else .error (.invalidVariableName value)

/-- Lines 128-129: every mandatory variable must now be a column; the assert
message lists all of `MANDATORY_DATA` (not just the missing ones). -/
def checkMandatory (data : DataFrame) : Except BuildError Unit :=
  if MANDATORY_DATA.all (fun v => data.hasCol v) then .ok ()
  else .error (.missingMandatory MANDATORY_DATA)

/-- Reading a column for a numeric QC comparison: a missing label is a
`KeyError`; comparing a datetime-typed column against a number is a
`TypeError` in pandas. -/
def getSeries (data : DataFrame) (name : String) : Except BuildError (List (Option ℚ)) :=
  match data.getCol name with
  | some (.nums vs) => .ok vs
  | some (.dates _) => .error .typeError
  | none => .error (.keyError name)

/-- Elementwise `x <= y` on possibly-missing values: any comparison touching
`NaN` yields `False` in pandas. -/
def valLE (a b : Option ℚ) : Bool :=
  match a, b with
  | some x, some y => decide (x ≤ y)
  | _, _ => false

/-- `all(series_a <= series_b)` (elementwise over aligned series). -/
def seriesLE (a b : List (Option ℚ)) : Bool :=
  (a.zip b).all (fun p => valLE p.1 p.2)

/-- Per-cell test of `(RHUM >= 0) & (RHUM <= 100)`; `NaN` fails. -/
def rhumCell (v : Option ℚ) : Bool :=
  match v with
  | some x => decide (0 ≤ x) && decide (x ≤ 100)
  | none => false

/-- Per-cell test of `series >= 0` (used for RAIN and SRAD); `NaN` fails. -/
def nonNegCell (v : Option ℚ) : Bool :=
  match v with
  | some x => decide (0 ≤ x)
  | none => false

/-- Message of `assert TEMP_QC` (line 133). -/
def tempMsg : String := "TMAX < TMIN at some point in the series"

/-- Message of `assert RHUM_QC` (line 136). -/
def rhumMsg : String := "0 <= RHUM <= 100 must be accomplished"

/-- Message of `assert RAIN_QC` (line 138). -/
def rainMsg : String := "0 <= RAIN must be accomplished"

/-- Message of `assert SRAD_QC` (line 141). -/
def sradMsg : String := "0 <= SRAD must be accomplished"

/-- Lines 137-141: `RAIN_QC` followed by the conditional `SRAD_QC`. -/
def qcRain (data : DataFrame) : Except BuildError Unit :=
  match getSeries data "RAIN" with
  | .error e => .error e
  | .ok rain =>
    if rain.all nonNegCell then
      if data.hasCol "SRAD" then
        match getSeries data "SRAD" with
        | .error e => .error e
        | .ok srad =>
          if srad.all nonNegCell then .ok () else .error (.qualityControl sradMsg)
      else .ok ()
    else .error (.qualityControl rainMsg)

/-- Lines 131-141: the quality-control block, in the source's order —
`TMIN <= TMAX` first, then `RHUM` bounds when the column is present, then
`RAIN >= 0`, then `SRAD >= 0` when the column is present; the first failing
assert is the one raised. -/
def qualityControl (data : DataFrame) : Except BuildError Unit :=
  match getSeries data "TMIN", getSeries data "TMAX" with
  | .ok tmin, .ok tmax =>
    if seriesLE tmin tmax then
      if data.hasCol "RHUM" then
        match getSeries data "RHUM" with
        | .error e => .error e
        | .ok rhum =>
          if rhum.all rhumCell then qcRain data
          else .error (.qualityControl rhumMsg)
      else qcRain data
    else .error (.qualityControl tempMsg)
  | .error e, _ => .error e
  | .ok _, .error e => .error e

/-- The `DATE_COL` column scan (lines 144-147): the loop overwrites
`DATE_COL` at every datetime-typed column, so the LAST one wins. -/
def lastDateCol (data : DataFrame) : Option String :=
  data.cols.foldl (fun acc c => if c.2.isDatetime then some c.1 else acc) none

/-- Lines 143-153: date-source resolution.  A datetime-typed index overrides
the column scan (`DATE_COL = True`, no `set_index`); otherwise the scanned
column (the last datetime-typed one) becomes the index; otherwise the
`assert DATE_COL` fails. -/
def resolveDate (data : DataFrame) : Except BuildError DataFrame :=
  if data.index.isDatetime then .ok data
  else
    match lastDateCol data with
    | some c => .ok (data.setIndex c)
    | none => .error .missingDate

/-- `self.INSI[:4].upper()` (line 155). -/
def normINSI (s : List Char) : List Char :=
  (s.take 4).map Char.toUpper

/-- The `Weather` object: station attributes and the validated records. -/
structure Weather where
  description : String
  INSI : List Char
  LAT : ℚ
  LON : ℚ
  ELEV : ℚ
  TAV : ℚ
  AMP : ℚ
  REFHT : ℚ
  WNDHT : ℚ
  data : DataFrame
deriving DecidableEq, Repr

/-- The object `__init__` constructs when every check passes: the fixed
attribute defaults of lines 110-118, the normalized institute code
(`'WSTA'[:4].upper()`, the attribute having been set to the literal `'WSTA'`
at line 111 and never changed before line 155), and the validated frame. -/
def mkWeather (lat lon elev : ℚ) (d : DataFrame) : Weather :=
  { description := "Weather station"
    INSI := normINSI ("WSTA".data)
    LAT := lat
    LON := lon
    ELEV := elev
    TAV := 17
    AMP := 10
    REFHT := 2
    WNDHT := 10
    data := d }

/-- `Weather.__init__` as a function: the whole validation pipeline on a copy
of the caller's frame.  The final `assert isinstance(data, DataFrame)` (line
157) is vacuously true in this model and elided. -/
def Weather.build (df : DataFrame) (pars : List (String × String))
    (lat lon elev : ℚ) : Except BuildError Weather :=
  let data := df.copy
  match applyPars data pars with
  | .error e => .error e
  | .ok data =>
    match checkMandatory data with
    | .error e => .error e
    | .ok () =>
      match qualityControl data with
      | .error e => .error e
      | .ok () =>
        match resolveDate data with
        | .error e => .error e
        | .ok data => .ok (mkWeather lat lon elev data)

/-! ## The `write` method (lines 161-196)

The fixed-width rendering of each line is delegated by the source to
formatter helpers (`weather_data`, `weather_data_header`, `weather_station`)
that live outside this module; the claims about `write` concern which files
come out, their names, which rows each one holds and in what order, so a
produced file is modelled as its name plus the sequence of `(day, fields)`
pairs the source feeds to `weather_data` (line 191-193), one per data line. -/

/-- Keep the entries of `xs` at the positions where `mask` is `true`
(boolean-mask row selection, `df.loc[mask]`). -/
def maskFilter (mask : List Bool) (xs : List α) : List α :=
  ((mask.zip xs).filter (·.1)).map (·.2)

/-- Boolean-mask selection applied to one column. -/
def ColData.keepMask (c : ColData) (mask : List Bool) : ColData :=
  match c with
  | .nums vs => .nums (maskFilter mask vs)
  | .dates vs => .dates (maskFilter mask vs)

/-- `df.loc[p(df.index)]` for a predicate `p` on the index dates: keeps the
rows whose index date satisfies `p`, in stored order.  (Only used on frames
with a datetime index, which `__init__` guarantees.) -/
def DataFrame.filterRows (df : DataFrame) (p : Date → Bool) : DataFrame :=
  match df.index with
  | .dates l => ⟨.dates (l.filter p), df.cols.map (fun c => (c.1, c.2.keepMask (l.map p)))⟩
  | .plain _ => df

/-- The cell of column `c` at row position `i`. -/
def ColData.cellAt (c : ColData) (i : Nat) : Cell :=
  match c with
  | .nums vs => .num (vs.getD i none)
  | .dates vs => .date (vs.getD i default)

/-- `list(df.iterrows())`: the `(day, fields)` pairs, one per row, in stored
order. -/
def DataFrame.rowsOf (df : DataFrame) : List (Date × List Cell) :=
  match df.index with
  | .dates l => l.enum.map (fun p => (p.2, df.cols.map (fun c => c.2.cellAt p.1)))
  | .plain _ => []

/-- `pd.Index.unique()`: the distinct values in order of first appearance. -/
def uniqueKeepFirst (l : List Nat) : List Nat :=
  l.foldl (fun acc x => if x ∈ acc then acc else acc ++ [x]) []

/-- One output file of `write`: its name and its data lines, each line being
the `(day, fields)` pair handed to the row formatter. -/
structure OutFile where
  filename : List Char
  rows : List (Date × List Cell)
deriving DecidableEq, Repr

instance : Inhabited OutFile := ⟨⟨[], []⟩⟩

/-- `Weather.write`: the optional `management` truncation (lines 173-177,
`self.data = self.data.loc[self.data.index >= sim_start]`, where `sim_start`
is midnight of the management object's start date, so the comparison is just
`date >= start`), then one file per `self.data.index.year.unique()` entry
(lines 178-196), the file for `year` holding `self.data.loc[self.data.index.year == year]`
row by row, named `f'{self.INSI}{str(year)[2:]}{month}.WTH'` with `month`
the literal `'01'` (line 181; the commented-out line 180 that would derive it
from the first record is dead).  Returns the station as it is after the call
(the truncation is an in-place reassignment of `self.data`) together with
the produced files. -/
def Weather.write (w : Weather) (management : Option Date) : Weather × List OutFile :=
  let w' : Weather :=
    match management with
    | some d => { w with data := w.data.filterRows (fun x => Date.le d x) }
    | none => w
  let years := uniqueKeepFirst (w'.data.indexDates.map (·.year))
  (w', years.map (fun year =>
    let df := w'.data.filterRows (fun x => x.year == year)
    let month : List Char := "01".data
    { filename := w'.INSI ++ (Nat.toDigits 10 year).drop 2 ++ month ++ ".WTH".data
      rows := df.rowsOf }))

/-! ## Store-based model of the constructor (for the no-caller-mutation claim)

Python frames are heap objects mutated through references; `df.copy()` at
line 119 allocates a fresh one, and every subsequent in-place operation
(`data[value] = ...`, `data.drop(..., inplace=True)`,
`data.set_index(..., inplace=True)`) goes through the new reference.  A
`Store` is the heap (a list of frames, a reference being a position); the
constructor re-run against the store shows which slots it writes. -/

/-- The heap of live frames. -/
structure Store where
  tables : List DataFrame
deriving DecidableEq, Repr

/-- Dereference. -/
def Store.read (s : Store) (r : Nat) : DataFrame := s.tables.getD r default

/-- Allocate a fresh frame, returning the new store and its reference. -/
def Store.alloc (s : Store) (d : DataFrame) : Store × Nat :=
  (⟨s.tables ++ [d]⟩, s.tables.length)

/-- Overwrite the frame a reference points at. -/
def Store.put (s : Store) (r : Nat) (d : DataFrame) : Store :=
  ⟨s.tables.set r d⟩

/-- The mapping loop of lines 121-126 with its in-place column assignment and
drop acting through reference `r`. -/
def applyParsIn (s : Store) (r : Nat) : List (String × String) → Store × Except BuildError Unit
  | [] => (s, .ok ())
  | (key, value) :: rest =>
    if value ∈ PARS_DATA then
      if key ∈ PARS_DATA then
        applyParsIn s r rest
      else
        match (s.read r).getCol key with
        | none => (s, .error (.keyError key))
        | some cd => applyParsIn (s.put r (((s.read r).setCol value cd).dropCol key)) r rest
    else (s, .error (.invalidVariableName value))

/-- `Weather.__init__` against the heap: `data = df.copy()` allocates, the
mapping loop and `set_index(..., inplace=True)` write through the new
reference, and the caller's frame is only ever read. -/
def Weather.buildIn (s : Store) (dfRef : Nat) (pars : List (String × String))
    (lat lon elev : ℚ) : Store × Except BuildError Weather :=
  let a := s.alloc ((s.read dfRef).copy)
  let s1 := a.1
  let r := a.2
  match applyParsIn s1 r pars with
  | (s2, .error e) => (s2, .error e)
  | (s2, .ok ()) =>
    match checkMandatory (s2.read r) with
    | .error e => (s2, .error e)
    | .ok () =>
      match qualityControl (s2.read r) with
      | .error e => (s2, .error e)
      | .ok () =>
        match resolveDate (s2.read r) with
        | .error e => (s2, .error e)
        | .ok d =>
          let s3 := s2.put r d
          (s3, .ok (mkWeather lat lon elev (s3.read r)))

/-- Does the frame hold `name` as a numeric (non-datetime) column?  This is
the regularity the quality checks presuppose of the columns they touch. -/
def isNumCol (d : DataFrame) (name : String) : Bool :=
  match d.getCol name with
  | some (.nums _) => true
  | _ => false

/-- The numeric values of a column (empty when absent or datetime-typed). -/
def seriesOf (d : DataFrame) (name : String) : List (Option ℚ) :=
  match d.getCol name with
  | some (.nums vs) => vs
  | _ => []

/-! ## Concrete sample inputs used by witnesses and counterexamples -/

/-- 2000-01-01. -/
def dJan1 : Date := ⟨2000, 1, 1⟩

/-- 2000-01-02. -/
def dJan2 : Date := ⟨2000, 1, 2⟩

/-- 2001-03-05. -/
def dNext : Date := ⟨2001, 3, 5⟩

/-- A valid one-day table carrying the four mandatory columns plus an extra
column `"foo"` that no mapping touches. -/
def exFrame : DataFrame :=
  ⟨.dates [dJan1],
   [("TMIN", .nums [some 10]), ("TMAX", .nums [some 20]),
    ("RAIN", .nums [some 0]), ("SRAD", .nums [some 15]),
    ("foo", .nums [some 1])]⟩

/-- A two-day table whose minimum temperature lives in a column `"tn"` that a
mapping renames to `TMIN`, plus an extra unmapped column `"foo"`. -/
def exMapFrame : DataFrame :=
  ⟨.dates [dJan1, dJan2],
   [("tn", .nums [some 10, some 11]),
    ("TMAX", .nums [some 20, some 21]),
    ("RAIN", .nums [some 0, some 5]),
    ("SRAD", .nums [some 15, some 15]),
    ("foo", .nums [some 1, some 2])]⟩

/-- The mapping used with `exMapFrame`. -/
def exMapPars : List (String × String) := [("tn", "TMIN")]

/-- `exMapFrame` after the mapping loop: `tn` renamed away, `TMIN` appended. -/
def exMapped : DataFrame :=
  ⟨.dates [dJan1, dJan2],
   [("TMAX", .nums [some 20, some 21]),
    ("RAIN", .nums [some 0, some 5]),
    ("SRAD", .nums [some 15, some 15]),
    ("foo", .nums [some 1, some 2]),
    ("TMIN", .nums [some 10, some 11])]⟩

/-- A table missing only the mandatory variable `SRAD`. -/
def exNoSrad : DataFrame :=
  ⟨.dates [dJan1],
   [("TMIN", .nums [some 10]), ("TMAX", .nums [some 20]), ("RAIN", .nums [some 0])]⟩

/-- A table with a plain index and TWO datetime-typed columns: `"a"` (first)
and `"b"` (last), on either side of the mandatory numeric columns. -/
def exTwoDates : DataFrame :=
  ⟨.plain 1,
   [("a", .dates [dJan1]),
    ("TMIN", .nums [some 10]), ("TMAX", .nums [some 20]),
    ("RAIN", .nums [some 0]), ("SRAD", .nums [some 15]),
    ("b", .dates [dNext])]⟩

/-- A table violating both the temperature rule (TMIN > TMAX) and the
rainfall rule (RAIN < 0) on its single row. -/
def exQC : DataFrame :=
  ⟨.dates [dJan1],
   [("TMIN", .nums [some 30]), ("TMAX", .nums [some 20]),
    ("RAIN", .nums [some (-1)]), ("SRAD", .nums [some 15])]⟩

/-- A table that passes mapping and mandatory checks but has a missing value
in its `RAIN` column. -/
def exNA : DataFrame :=
  ⟨.dates [dJan1],
   [("TMIN", .nums [some 10]), ("TMAX", .nums [some 20]),
    ("RAIN", .nums [none]), ("SRAD", .nums [some 15])]⟩

/-- A station whose records span two calendar years and are NOT sorted:
2000-01-02 is stored before 2000-01-01. -/
def exUnsorted : Weather :=
  mkWeather 0 0 0
    ⟨.dates [dJan2, dJan1, dNext],
     [("TMIN", .nums [some 10, some 11, some 12])]⟩

/-- A station whose records span two calendar years in ascending order. -/
def exSorted : Weather :=
  mkWeather 0 0 0
    ⟨.dates [dJan1, dJan2, dNext],
     [("TMIN", .nums [some 10, some 11, some 12])]⟩

/-- A one-table heap whose only frame is `exMapFrame`. -/
def exStore : Store := ⟨[exMapFrame]⟩

/-! ## Helper lemmas about the frame operations -/

theorem getCol_some_hasCol {d : DataFrame} {c : String} {cd : ColData}
    (h : d.getCol c = some cd) : d.hasCol c = true := by
  simp only [DataFrame.getCol, Option.map_eq_some'] at h
  obtain ⟨x, hx, -⟩ := h
  have hmem := List.mem_of_find?_eq_some hx
  have hp := List.find?_some hx
  simp only [DataFrame.hasCol, List.any_eq_true]
  exact ⟨x, hmem, hp⟩

theorem hasCol_getCol_some {d : DataFrame} {c : String}
    (h : d.hasCol c = true) : ∃ cd, d.getCol c = some cd := by
  simp only [DataFrame.hasCol, List.any_eq_true] at h
  obtain ⟨x, hmem, hp⟩ := h
  cases hfind : d.cols.find? (·.1 == c) with
  | none =>
    rw [List.find?_eq_none] at hfind
    exact absurd hp (hfind x hmem)
  | some y =>
    exact ⟨y.2, by simp [DataFrame.getCol, hfind]⟩

theorem hasCol_setCol (d : DataFrame) (n c : String) (cd : ColData) :
    (d.setCol n cd).hasCol c = true ↔ (c = n ∨ d.hasCol c = true) := by
  unfold DataFrame.setCol
  by_cases hn : d.hasCol n = true
  · rw [if_pos hn]
    have hn' := hn
    simp only [DataFrame.hasCol, List.any_eq_true] at hn' ⊢
    constructor
    · rintro ⟨x, hmem, hx⟩
      obtain ⟨y, hy, rfl⟩ := List.mem_map.mp hmem
      by_cases hyn : (y.1 == n) = true
      · rw [if_pos hyn] at hx
        exact Or.inl (beq_iff_eq.mp hx).symm
      · rw [if_neg hyn] at hx
        exact Or.inr ⟨y, hy, hx⟩
    · rintro (rfl | ⟨x, hmem, hx⟩)
      · obtain ⟨y, hy, hyc⟩ := hn'
        exact ⟨(c, cd), List.mem_map.mpr ⟨y, hy, by rw [if_pos hyc]⟩, by simp⟩
      · refine ⟨if (x.1 == n) = true then (n, cd) else x,
          List.mem_map.mpr ⟨x, hmem, rfl⟩, ?_⟩
        by_cases hxn : (x.1 == n) = true
        · rw [if_pos hxn]
          have h1 : x.1 = n := beq_iff_eq.mp hxn
          have h2 : x.1 = c := beq_iff_eq.mp hx
          simp [← h1, h2]
        · rw [if_neg hxn]; exact hx
  · rw [if_neg hn]
    simp only [DataFrame.hasCol, List.any_eq_true, List.mem_append,
      List.mem_singleton]
    constructor
    · rintro ⟨x, hmem | hone, hx⟩
      · exact Or.inr ⟨x, hmem, hx⟩
      · subst hone
        exact Or.inl (beq_iff_eq.mp hx).symm
    · rintro (rfl | ⟨x, hmem, hx⟩)
      · exact ⟨(c, cd), Or.inr rfl, by simp⟩
      · exact ⟨x, Or.inl hmem, hx⟩

theorem hasCol_dropCol (d : DataFrame) (n c : String) :
    (d.dropCol n).hasCol c = true ↔ (d.hasCol c = true ∧ c ≠ n) := by
  simp only [DataFrame.dropCol, DataFrame.hasCol, List.any_eq_true, List.mem_filter]
  constructor
  · rintro ⟨x, ⟨hmem, hxn⟩, hxc⟩
    have hc := beq_iff_eq.mp hxc
    refine ⟨⟨x, hmem, hxc⟩, ?_⟩
    rintro rfl
    simp [hc] at hxn
  · rintro ⟨⟨x, hmem, hxc⟩, hcn⟩
    have hc := beq_iff_eq.mp hxc
    refine ⟨x, ⟨hmem, ?_⟩, hxc⟩
    simp [hc, hcn]

theorem checkMandatory_ok {d : DataFrame} (h : checkMandatory d = .ok ()) :
    ∀ m ∈ MANDATORY_DATA, d.hasCol m = true := by
  unfold checkMandatory at h
  split at h
  · next hall => exact List.all_eq_true.mp hall
  · exact absurd h (by simp)

theorem getSeries_of_isNum {d : DataFrame} {c : String} (h : isNumCol d c = true) :
    getSeries d c = .ok (seriesOf d c) := by
  unfold isNumCol at h
  unfold getSeries seriesOf
  cases hg : d.getCol c with
  | none => rw [hg] at h; simp at h
  | some cd =>
    cases cd with
    | nums vs => rfl
    | dates vs => rw [hg] at h; simp at h

theorem getSeries_ok_hasCol {d : DataFrame} {c : String} {vs : List (Option ℚ)}
    (h : getSeries d c = .ok vs) : d.hasCol c = true := by
  unfold getSeries at h
  cases hg : d.getCol c with
  | none => rw [hg] at h; exact absurd h (by simp)
  | some cd => exact getCol_some_hasCol hg

theorem isNumCol_getCol {d : DataFrame} {c : String} (h : isNumCol d c = true) :
    d.getCol c = some (.nums (seriesOf d c)) := by
  unfold isNumCol at h
  unfold seriesOf
  cases hg : d.getCol c with
  | none => rw [hg] at h; simp at h
  | some cd =>
    cases cd with
    | nums vs => rfl
    | dates vs => rw [hg] at h; simp at h

theorem valLE_none_left (b : Option ℚ) : valLE none b = false := by
  cases b <;> rfl

theorem valLE_none_right (a : Option ℚ) : valLE a none = false := by
  cases a <;> rfl

theorem seriesLE_false_at {a b : List (Option ℚ)} {i : Nat} {p : Option ℚ × Option ℚ}
    (ha : a[i]? = some p.1) (hb : b[i]? = some p.2) (hp : valLE p.1 p.2 = false) :
    seriesLE a b = false := by
  by_contra hne
  have hall : seriesLE a b = true := by
    cases hv : seriesLE a b
    · exact absurd hv hne
    · rfl
  have hz : (a.zip b)[i]? = some p := List.getElem?_zip_eq_some.mpr ⟨ha, hb⟩
  have hmem : p ∈ a.zip b := List.getElem?_mem hz
  have := List.all_eq_true.mp hall p hmem
  rw [hp] at this
  exact Bool.false_ne_true this

theorem all_false_of_mem {p : α → Bool} {l : List α} {x : α}
    (hmem : x ∈ l) (hx : p x = false) : l.all p = false := by
  by_contra hne
  have hall : l.all p = true := by
    cases hv : l.all p
    · exact absurd hv hne
    · rfl
  have := List.all_eq_true.mp hall x hmem
  rw [hx] at this
  exact Bool.false_ne_true this

/-! ## Helper lemmas about `uniqueKeepFirst`, `rowsOf` and `filterRows` -/

theorem uniqueKeepFirst_aux_mem (l acc : List Nat) (x : Nat) :
    x ∈ l.foldl (fun acc x => if x ∈ acc then acc else acc ++ [x]) acc
      ↔ x ∈ acc ∨ x ∈ l := by
  induction l generalizing acc with
  | nil => simp
  | cons y ys ih =>
    simp only [List.foldl_cons, ih, List.mem_cons]
    by_cases hy : y ∈ acc
    · rw [if_pos hy]
      constructor
      · rintro (h | h)
        · exact Or.inl h
        · exact Or.inr (Or.inr h)
      · rintro (h | rfl | h)
        · exact Or.inl h
        · exact Or.inl hy
        · exact Or.inr h
    · rw [if_neg hy]
      simp only [List.mem_append, List.mem_singleton]
      tauto

theorem uniqueKeepFirst_aux_nodup (l acc : List Nat) (h : acc.Nodup) :
    (l.foldl (fun acc x => if x ∈ acc then acc else acc ++ [x]) acc).Nodup := by
  induction l generalizing acc with
  | nil => exact h
  | cons y ys ih =>
    simp only [List.foldl_cons]
    by_cases hy : y ∈ acc
    · rw [if_pos hy]; exact ih acc h
    · rw [if_neg hy]
      refine ih _ ?_
      simp [List.nodup_append, h, hy]

theorem uniqueKeepFirst_mem (l : List Nat) (x : Nat) :
    x ∈ uniqueKeepFirst l ↔ x ∈ l := by
  unfold uniqueKeepFirst
  rw [uniqueKeepFirst_aux_mem]
  simp

theorem uniqueKeepFirst_nodup (l : List Nat) : (uniqueKeepFirst l).Nodup :=
  uniqueKeepFirst_aux_nodup l [] List.nodup_nil

theorem uniqueKeepFirst_length (l : List Nat) :
    (uniqueKeepFirst l).length = l.toFinset.card := by
  have hfin : (uniqueKeepFirst l).toFinset = l.toFinset := by
    ext x
    simp [List.mem_toFinset, uniqueKeepFirst_mem]
  rw [← List.toFinset_card_of_nodup (uniqueKeepFirst_nodup l), hfin]

theorem rowsOf_map_fst (df : DataFrame) :
    df.rowsOf.map (·.1) = df.indexDates := by
  obtain ⟨idx, cols⟩ := df
  cases idx with
  | dates l =>
    simp only [DataFrame.rowsOf, DataFrame.indexDates, List.map_map]
    exact List.enum_map_snd l
  | plain n => rfl

theorem filterRows_indexDates {df : DataFrame} {l : List Date} (p : Date → Bool)
    (h : df.index = .dates l) :
    (df.filterRows p).indexDates = l.filter p := by
  obtain ⟨idx, cols⟩ := df
  cases h
  rfl

theorem filterRows_index {df : DataFrame} {l : List Date} (p : Date → Bool)
    (h : df.index = .dates l) :
    (df.filterRows p).index = .dates (l.filter p) := by
  obtain ⟨idx, cols⟩ := df
  cases h
  rfl

/-! ## Helper lemmas about the constructor steps -/

/-- What the mapping loop guarantees about columns: every column bearing a
canonical (`PARS_DATA`) name survives the loop, and every processed mapping
whose source is not itself canonical leaves its target as a column. -/
theorem applyPars_columns {pars : List (String × String)} {d d2 : DataFrame}
    (h : applyPars d pars = .ok d2) :
    (∀ c, c ∈ PARS_DATA → d.hasCol c = true → d2.hasCol c = true)
    ∧ (∀ kv ∈ pars, kv.1 ∉ PARS_DATA → d2.hasCol kv.2 = true) := by
  induction pars generalizing d with
  | nil =>
    simp only [applyPars] at h
    cases h
    exact ⟨fun c _ hc => hc, by simp⟩
  | cons kv rest ih =>
    obtain ⟨k, v⟩ := kv
    simp only [applyPars] at h
    by_cases hv : v ∈ PARS_DATA
    · rw [if_pos hv] at h
      by_cases hk : k ∈ PARS_DATA
      · rw [if_pos hk] at h
        obtain ⟨hkeep, htar⟩ := ih h
        refine ⟨hkeep, ?_⟩
        rintro ⟨k', v'⟩ hmem hk'
        rcases List.mem_cons.mp hmem with heq | hmem'
        · cases heq
          exact absurd hk hk'
        · exact htar _ hmem' hk'
      · rw [if_neg hk] at h
        cases hg : d.getCol k with
        | none => rw [hg] at h; exact absurd h (by simp)
        | some cd =>
          rw [hg] at h
          obtain ⟨hkeep, htar⟩ := ih h
          have hstep : ∀ c, c ∈ PARS_DATA →
              d.hasCol c = true → ((d.setCol v cd).dropCol k).hasCol c = true := by
            intro c hcP hc
            rw [hasCol_dropCol]
            refine ⟨(hasCol_setCol d v c cd).mpr (Or.inr hc), ?_⟩
            rintro rfl
            exact hk hcP
          have hvcol : ((d.setCol v cd).dropCol k).hasCol v = true := by
            rw [hasCol_dropCol]
            refine ⟨(hasCol_setCol d v v cd).mpr (Or.inl rfl), ?_⟩
            rintro rfl
            exact hk hv
          refine ⟨fun c hcP hc => hkeep c hcP (hstep c hcP hc), ?_⟩
          rintro ⟨k', v'⟩ hmem hk'
          rcases List.mem_cons.mp hmem with heq | hmem'
          · cases heq
            exact hkeep v hv hvcol
          · exact htar _ hmem' hk'
    · rw [if_neg hv] at h
      exact absurd h (by simp)

/-- The `DATE_COL` scan keeps the LAST datetime-typed column: the loop's
fold equals a right-to-left first match. -/
theorem lastDateCol_eq_reverse_find (df : DataFrame) :
    lastDateCol df = (df.cols.reverse.find? (·.2.isDatetime)).map (·.1) := by
  unfold lastDateCol
  suffices h : ∀ (l : List (String × ColData)) (acc : Option String),
      l.foldl (fun acc c => if c.2.isDatetime then some c.1 else acc) acc
        = match l.reverse.find? (·.2.isDatetime) with
          | some c => some c.1
          | none => acc by
    rw [h df.cols none]
    cases df.cols.reverse.find? (·.2.isDatetime) <;> rfl
  intro l
  induction l with
  | nil => intro acc; rfl
  | cons x xs ih =>
    intro acc
    simp only [List.foldl_cons, ih, List.reverse_cons, List.find?_append]
    cases hfind : xs.reverse.find? (·.2.isDatetime) with
    | some c => rfl
    | none =>
      simp only [Option.none_or]
      cases hx : x.2.isDatetime <;> simp [List.find?, hx]

/-- A numeric column survives `setIndex` (only the datetime-typed column
adopted as the index is removed). -/
theorem setIndex_keeps_numCol {d : DataFrame} {m : String} (c : String)
    (h : isNumCol d m = true) : (d.setIndex c).hasCol m = true := by
  have hg := isNumCol_getCol h
  unfold DataFrame.setIndex
  cases hgc : d.getCol c with
  | none => exact getCol_some_hasCol hg
  | some cd =>
    cases cd with
    | nums vs => exact getCol_some_hasCol hg
    | dates vs =>
      by_cases hmc : m = c
      · subst hmc
        rw [hg] at hgc
        simp at hgc
      · simp only [DataFrame.hasCol, List.any_eq_true]
        have hmem : ∃ x ∈ d.cols, (x.1 == m) = true := by
          simpa only [DataFrame.hasCol, List.any_eq_true]
            using getCol_some_hasCol hg
        obtain ⟨x, hxmem, hx⟩ := hmem
        refine ⟨x, List.mem_filter.mpr ⟨hxmem, ?_⟩, hx⟩
        have : x.1 = m := beq_iff_eq.mp hx
        simp [this, hmc]

/-! ## Helper lemmas about the heap model -/

theorem Store.read_alloc_old {s : Store} {r : Nat} (d : DataFrame)
    (h : r < s.tables.length) : (s.alloc d).1.read r = s.read r := by
  simp only [Store.alloc, Store.read]
  exact List.getD_append _ _ _ _ h

theorem Store.read_put_ne {s : Store} {r r' : Nat} (d : DataFrame) (h : r' ≠ r) :
    (s.put r d).read r' = s.read r' := by
  simp only [Store.put, Store.read, List.getD_eq_getElem?_getD]
  rw [List.getElem?_set_ne (Ne.symm h)]

theorem applyParsIn_read_ne (pars : List (String × String)) (s : Store) (r r' : Nat)
    (h : r' ≠ r) : ((applyParsIn s r pars).1).read r' = s.read r' := by
  induction pars generalizing s with
  | nil => rfl
  | cons kv rest ih =>
    obtain ⟨k, v⟩ := kv
    simp only [applyParsIn]
    by_cases hv : v ∈ PARS_DATA
    · rw [if_pos hv]
      by_cases hk : k ∈ PARS_DATA
      · rw [if_pos hk]
        exact ih s
      · rw [if_neg hk]
        cases hg : (s.read r).getCol k with
        | none => rfl
        | some cd =>
          exact (ih _).trans (Store.read_put_ne _ h)
    · rw [if_neg hv]

/-! ## Claim theorems -/

/-- C8: for every heap, every caller frame and every mapping, the constructor
leaves the caller's table untouched — whether it succeeds or fails, the frame
the caller's reference points at after the call is exactly the frame it
pointed at before (same columns, same index, same values).  All in-place
operations of `__init__` go through the fresh reference created by
`data = df.copy()` at line 119. -/
theorem build_preserves_caller_table (s : Store) (dfRef : Nat)
    (pars : List (String × String)) (lat lon elev : ℚ)
    (h : dfRef < s.tables.length) :
    ((Weather.buildIn s dfRef pars lat lon elev).1).read dfRef = s.read dfRef := by
  have hne : dfRef ≠ s.tables.length := Nat.ne_of_lt h
  have haux : ∀ (s2 : Store) (res : Except BuildError Unit),
      applyParsIn ⟨s.tables ++ [(s.read dfRef).copy]⟩ s.tables.length pars = (s2, res) →
      s2.read dfRef = s.read dfRef := by
    intro s2 res heq
    have h1 := applyParsIn_read_ne pars ⟨s.tables ++ [(s.read dfRef).copy]⟩
      s.tables.length dfRef hne
    rw [heq] at h1
    refine h1.trans ?_
    simp only [Store.read]
    exact List.getD_append _ _ _ _ h
  unfold Weather.buildIn
  simp only [Store.alloc]
  split
  · next s2 e heq => exact haux _ _ heq
  · next s2 heq =>
    split
    · exact haux _ _ heq
    · split
      · exact haux _ _ heq
      · split
        · exact haux _ _ heq
        · exact (Store.read_put_ne _ hne).trans (haux _ _ heq)

/-- C8 witness: the heap holding just `exMapFrame` at reference 0 is
unchanged at that reference by a build that renames a column. -/
theorem build_preserves_caller_table_witness :
    0 < exStore.tables.length
    ∧ ((Weather.buildIn exStore 0 exMapPars 0 0 0).1).read 0 = exStore.read 0 :=
  ⟨by decide, build_preserves_caller_table exStore 0 exMapPars 0 0 0 (by decide)⟩

/-- C9 counterexample: the normalization `[:4].upper()` does not pad — from
the two-character code `"xy"` it produces `"XY"`, which is not 4 characters
long, refuting "exactly 4 characters regardless of the length of the code it
is normalized from". -/
theorem INSI_normalization_cex :
    normINSI "xy".data = "XY".data ∧ ("XY".data).length ≠ 4 := by
  decide

/-- C9 (amended): after every successful build the institute code is the
fixed literal `"WSTA"` (hence exactly 4 uppercase characters: the
constructor sets the attribute to `'WSTA'` at line 111 and normalizes that
very value at line 155); the normalization takes the first 4 characters and
uppercases them (so `"abcdef"` yields `"ABCD"`), and its result has length
`min 4 n` for a length-`n` code — exactly 4 only when the code has at least
4 characters, with no padding of shorter codes. -/
theorem INSI_normalization :
    (∀ df pars lat lon elev w, Weather.build df pars lat lon elev = .ok w →
      w.INSI = "WSTA".data)
    ∧ (∀ s : List Char, (normINSI s).length = min 4 s.length)
    ∧ normINSI "abcdef".data = "ABCD".data := by
  refine ⟨?_, ?_, by decide⟩
  · intro df pars lat lon elev w h
    simp only [Weather.build, DataFrame.copy] at h
    split at h
    · exact absurd h (by simp)
    split at h
    · exact absurd h (by simp)
    split at h
    · exact absurd h (by simp)
    split at h
    · exact absurd h (by simp)
    injection h with h2
    rw [← h2]
    rfl
  · intro s
    simp [normINSI, List.length_take]

/-- C9 witness: the amended theorem applied at a concrete successful build
(`exFrame` with no mapping) and at the concrete short code `"xy"`. -/
theorem INSI_normalization_witness :
    (mkWeather 0 0 0 exFrame).INSI = "WSTA".data
    ∧ (normINSI "xy".data).length = min 4 ("xy".data).length :=
  ⟨INSI_normalization.1 exFrame [] 0 0 0 (mkWeather 0 0 0 exFrame) rfl,
   INSI_normalization.2.1 "xy".data⟩

/-- C3 counterexample: for the table `exNoSrad`, whose only missing mandatory
variable is `SRAD`, the failure carries the full fixed list
`TMIN, TMAX, RAIN, SRAD` (the names joined into the assert's message at line
129), not the list of missing names `["SRAD"]`. -/
theorem build_missing_mandatory_cex :
    Weather.build exNoSrad [] 0 0 0 = .error (.missingMandatory MANDATORY_DATA)
    ∧ MANDATORY_DATA.filter (fun v => ¬ exNoSrad.hasCol v) = ["SRAD"]
    ∧ MANDATORY_DATA ≠ ["SRAD"] :=
  ⟨rfl, by decide, by decide⟩

/-- C3 (amended): for every input missing at least one of TMIN, TMAX, RAIN,
SRAD after the column mapping, build fails with `MissingMandatoryVariable`;
the error's message names the full mandatory list (the same fixed four names
whatever the missing subset is), not specifically the missing names. -/
theorem build_missing_mandatory_error (df d2 : DataFrame)
    (pars : List (String × String)) (lat lon elev : ℚ)
    (hmap : applyPars df pars = .ok d2)
    (hmiss : ∃ v ∈ MANDATORY_DATA, d2.hasCol v = false) :
    Weather.build df pars lat lon elev = .error (.missingMandatory MANDATORY_DATA) := by
  obtain ⟨v, hv, hvc⟩ := hmiss
  have hcm : checkMandatory d2 = .error (.missingMandatory MANDATORY_DATA) := by
    unfold checkMandatory
    rw [if_neg]
    intro hall
    have := List.all_eq_true.mp hall v hv
    rw [hvc] at this
    exact Bool.false_ne_true this
  simp only [Weather.build, DataFrame.copy, hmap, hcm]

/-- C3 witness: the amended theorem applied to `exNoSrad`. -/
theorem build_missing_mandatory_error_witness :
    Weather.build exNoSrad [] 0 0 0 = .error (.missingMandatory MANDATORY_DATA) :=
  build_missing_mandatory_error exNoSrad exNoSrad [] 0 0 0 rfl
    ⟨"SRAD", by decide, by decide⟩

/-- C2: for every input passing the mapping and mandatory checks in which
some row has TMIN > TMAX, build fails with the quality-control error of the
temperature rule — the first check in the fixed order TMIN<=TMAX, RHUM
bounds, RAIN>=0, SRAD>=0 — whatever the other columns contain (no object is
constructed: the result is the error, not a `Weather`). -/
theorem build_tmin_gt_tmax_qc (df d2 : DataFrame) (pars : List (String × String))
    (lat lon elev : ℚ) (tmin tmax : List (Option ℚ))
    (hmap : applyPars df pars = .ok d2)
    (hman : checkMandatory d2 = .ok ())
    (htmin : getSeries d2 "TMIN" = .ok tmin)
    (htmax : getSeries d2 "TMAX" = .ok tmax)
    (hbad : ∃ (i : Nat) (a b : ℚ),
      tmin[i]? = some (some a) ∧ tmax[i]? = some (some b) ∧ b < a) :
    Weather.build df pars lat lon elev = .error (.qualityControl tempMsg) := by
  obtain ⟨i, a, b, ha, hb, hab⟩ := hbad
  have hle : seriesLE tmin tmax = false := by
    refine seriesLE_false_at (p := (some a, some b)) ha hb ?_
    simp only [valLE]
    exact decide_eq_false (not_le.mpr hab)
  have hqc : qualityControl d2 = .error (.qualityControl tempMsg) := by
    simp only [qualityControl, htmin, htmax, hle, Bool.false_eq_true, if_false]
  simp only [Weather.build, DataFrame.copy, hmap, hman, hqc]

/-- C2 witness: `exQC` (whose single row has TMIN = 30 > 20 = TMAX and also a
negative RAIN) fails with the temperature rule: the first violated check in
the fixed order is the one reported. -/
theorem build_tmin_gt_tmax_qc_witness :
    Weather.build exQC [] 0 0 0 = .error (.qualityControl tempMsg) :=
  build_tmin_gt_tmax_qc exQC exQC [] 0 0 0 [some 30] [some 20] rfl rfl rfl rfl
    ⟨0, 30, 20, rfl, rfl, by norm_num⟩

/-- C1 counterexample: `exFrame` satisfies every constraint with an empty
mapping (so the set of mapped optional variables is empty), yet the records
keep the unmapped extra column `"foo"`, which is neither mandatory nor a
mapping target: the records' columns are not exactly
`MandatoryData ∪ (mapped optional columns)`. -/
theorem build_records_columns_cex :
    (Weather.build exFrame [] 0 0 0).toOption.map (fun w => w.data.columns)
      = some ["TMIN", "TMAX", "RAIN", "SRAD", "foo"]
    ∧ "foo" ∉ MANDATORY_DATA :=
  ⟨rfl, by decide⟩

/-- C1 (amended): for every input satisfying the mapping, mandatory-variable,
QC and date-source constraints, build succeeds, its records are the resolved
frame; every mandatory variable is a column of the records, and every mapping
target whose source column is not itself canonical is a column of the mapped
table — but unmapped input columns are NOT dropped, so the records may hold
columns beyond `MandatoryData ∪ (mapped optional columns)` (and a mapped
target that is the datetime column adopted as the index leaves the columns). -/
theorem build_records_columns (df d2 d3 : DataFrame)
    (pars : List (String × String)) (lat lon elev : ℚ)
    (hmap : applyPars df pars = .ok d2)
    (hman : checkMandatory d2 = .ok ())
    (hqc : qualityControl d2 = .ok ())
    (hdate : resolveDate d2 = .ok d3)
    (hnum : ∀ m ∈ MANDATORY_DATA, isNumCol d2 m = true) :
    Weather.build df pars lat lon elev = .ok (mkWeather lat lon elev d3)
    ∧ (∀ m ∈ MANDATORY_DATA, d3.hasCol m = true)
    ∧ (∀ kv ∈ pars, kv.1 ∉ PARS_DATA → d2.hasCol kv.2 = true) := by
  refine ⟨?_, ?_, (applyPars_columns hmap).2⟩
  · simp only [Weather.build, DataFrame.copy, hmap, hman, hqc, hdate]
  · intro m hm
    have hnm := hnum m hm
    unfold resolveDate at hdate
    by_cases hidx : d2.index.isDatetime = true
    · rw [if_pos hidx] at hdate
      injection hdate with hd
      rw [← hd]
      exact getCol_some_hasCol (isNumCol_getCol hnm)
    · rw [if_neg hidx] at hdate
      cases hlast : lastDateCol d2 with
      | none => rw [hlast] at hdate; exact absurd hdate (by simp)
      | some c =>
        rw [hlast] at hdate
        injection hdate with hd
        rw [← hd]
        exact setIndex_keeps_numCol c hnm

/-- C1 witness: the amended theorem at `exMapFrame` with the mapping
`tn ↦ TMIN`: build succeeds, the records hold all mandatory variables and
the mapped target, and the unmapped `"foo"` column demonstrably survives in
`exMapped`. -/
theorem build_records_columns_witness :
    Weather.build exMapFrame exMapPars 0 0 0 = .ok (mkWeather 0 0 0 exMapped)
    ∧ (∀ m ∈ MANDATORY_DATA, exMapped.hasCol m = true)
    ∧ (∀ kv ∈ exMapPars, kv.1 ∉ PARS_DATA → exMapped.hasCol kv.2 = true) :=
  build_records_columns exMapFrame exMapped exMapped exMapPars 0 0 0
    rfl rfl rfl rfl (by decide)

/-- C4 counterexample: `exTwoDates` has a plain index and two datetime-typed
columns, `"a"` (first, dated 2000-01-01) and `"b"` (last, dated 2001-03-05);
build adopts the LAST one as the index (the resulting index holds `"b"`'s
date and `"a"` is still a plain column), not the first as claimed. -/
theorem build_date_resolution_cex :
    (Weather.build exTwoDates [] 0 0 0).toOption.map
        (fun w => (w.data.index, w.data.columns))
      = some (.dates [dNext], ["a", "TMIN", "TMAX", "RAIN", "SRAD"])
    ∧ exTwoDates.cols.find? (·.2.isDatetime) = some ("a", .dates [dJan1])
    ∧ dNext ≠ dJan1 :=
  ⟨rfl, rfl, by decide⟩

/-- C4 (amended): date-source resolution in build follows this priority: a
datetime-typed row index is used as-is; otherwise the LAST datetime-typed
column in left-to-right order (the first in right-to-left order) is adopted
as the index and removed as a plain column (`setIndex`); if neither a
datetime index nor any datetime column exists, build fails with
`MissingDateColumn`. -/
theorem build_date_resolution (df d2 : DataFrame) (pars : List (String × String))
    (lat lon elev : ℚ)
    (hmap : applyPars df pars = .ok d2)
    (hman : checkMandatory d2 = .ok ())
    (hqc : qualityControl d2 = .ok ()) :
    (d2.index.isDatetime = true →
      Weather.build df pars lat lon elev = .ok (mkWeather lat lon elev d2))
    ∧ (∀ c, d2.index.isDatetime = false →
        d2.cols.reverse.find? (·.2.isDatetime) = some c →
        Weather.build df pars lat lon elev
          = .ok (mkWeather lat lon elev (d2.setIndex c.1)))
    ∧ (d2.index.isDatetime = false →
        d2.cols.reverse.find? (·.2.isDatetime) = none →
        Weather.build df pars lat lon elev = .error .missingDate) := by
  refine ⟨?_, ?_, ?_⟩
  · intro hidx
    have hres : resolveDate d2 = .ok d2 := by
      unfold resolveDate
      rw [if_pos hidx]
    simp only [Weather.build, DataFrame.copy, hmap, hman, hqc, hres]
  · intro c hidx hfind
    have hlast : lastDateCol d2 = some c.1 := by
      rw [lastDateCol_eq_reverse_find, hfind]
      rfl
    have hres : resolveDate d2 = .ok (d2.setIndex c.1) := by
      unfold resolveDate
      rw [if_neg (by simp [hidx]), hlast]
    simp only [Weather.build, DataFrame.copy, hmap, hman, hqc, hres]
  · intro hidx hfind
    have hlast : lastDateCol d2 = none := by
      rw [lastDateCol_eq_reverse_find, hfind]
      rfl
    have hres : resolveDate d2 = .error .missingDate := by
      unfold resolveDate
      rw [if_neg (by simp [hidx]), hlast]
    simp only [Weather.build, DataFrame.copy, hmap, hman, hqc, hres]

/-- C4 witness: the amended theorem at `exTwoDates`: the scan's winner is the
last datetime-typed column `"b"`, which becomes the index. -/
theorem build_date_resolution_witness :
    Weather.build exTwoDates [] 0 0 0
      = .ok (mkWeather 0 0 0 (exTwoDates.setIndex "b")) :=
  (build_date_resolution exTwoDates exTwoDates [] 0 0 0 rfl rfl rfl).2.1
    ("b", .dates [dNext]) rfl rfl

/-- C10: for every input passing the mapping and mandatory checks (with the
QC-checked columns numeric, as the comparisons presuppose), a missing value
anywhere in TMIN, TMAX (at a position the other temperature column also
covers) or RAIN — or in RHUM or SRAD when those columns are present — makes
build fail at the quality-control step with one of the QC rules: a `NaN`
compares as `False`, so a missing value is never accepted even though no
numeric bound is violated. -/
theorem build_na_fails_qc (df d2 : DataFrame) (pars : List (String × String))
    (lat lon elev : ℚ)
    (hmap : applyPars df pars = .ok d2)
    (hman : checkMandatory d2 = .ok ())
    (hnum : ∀ m ∈ MANDATORY_DATA, isNumCol d2 m = true)
    (hrhum : d2.hasCol "RHUM" = true → isNumCol d2 "RHUM" = true)
    (hbad :
      (∃ i : Nat, i < (seriesOf d2 "TMAX").length
        ∧ (seriesOf d2 "TMIN")[i]? = some none)
      ∨ (∃ i : Nat, i < (seriesOf d2 "TMIN").length
        ∧ (seriesOf d2 "TMAX")[i]? = some none)
      ∨ none ∈ seriesOf d2 "RAIN"
      ∨ (d2.hasCol "RHUM" = true ∧ none ∈ seriesOf d2 "RHUM")
      ∨ none ∈ seriesOf d2 "SRAD") :
    ∃ rule, Weather.build df pars lat lon elev = .error (.qualityControl rule) := by
  have htminS : getSeries d2 "TMIN" = .ok (seriesOf d2 "TMIN") :=
    getSeries_of_isNum (hnum "TMIN" (by decide))
  have htmaxS : getSeries d2 "TMAX" = .ok (seriesOf d2 "TMAX") :=
    getSeries_of_isNum (hnum "TMAX" (by decide))
  have hrainS : getSeries d2 "RAIN" = .ok (seriesOf d2 "RAIN") :=
    getSeries_of_isNum (hnum "RAIN" (by decide))
  have hsradS : getSeries d2 "SRAD" = .ok (seriesOf d2 "SRAD") :=
    getSeries_of_isNum (hnum "SRAD" (by decide))
  have hsradCol : d2.hasCol "SRAD" = true := checkMandatory_ok hman "SRAD" (by decide)
  suffices hq : ∃ rule, qualityControl d2 = .error (.qualityControl rule) by
    obtain ⟨rule, hq⟩ := hq
    exact ⟨rule, by simp only [Weather.build, DataFrame.copy, hmap, hman, hq]⟩
  have hqcRain : (none ∈ seriesOf d2 "RAIN" ∨ none ∈ seriesOf d2 "SRAD") →
      ∃ rule, qcRain d2 = .error (.qualityControl rule) := by
    intro hd
    cases hraAll : (seriesOf d2 "RAIN").all nonNegCell with
    | false =>
      refine ⟨rainMsg, ?_⟩
      simp only [qcRain, hrainS, hraAll, Bool.false_eq_true, if_false]
    | true =>
      have hdsrad : none ∈ seriesOf d2 "SRAD" := by
        rcases hd with hd | hd
        · have := all_false_of_mem hd (by rfl : nonNegCell none = false)
          rw [hraAll] at this
          exact absurd this (by simp)
        · exact hd
      have hsrAll : (seriesOf d2 "SRAD").all nonNegCell = false :=
        all_false_of_mem hdsrad rfl
      refine ⟨sradMsg, ?_⟩
      simp only [qcRain, hrainS, hraAll, if_true, hsradCol, hsradS, hsrAll,
        Bool.false_eq_true, if_false]
  cases hle : seriesLE (seriesOf d2 "TMIN") (seriesOf d2 "TMAX") with
  | false =>
    refine ⟨tempMsg, ?_⟩
    simp only [qualityControl, htminS, htmaxS, hle, Bool.false_eq_true, if_false]
  | true =>
    have hrest : none ∈ seriesOf d2 "RAIN"
        ∨ (d2.hasCol "RHUM" = true ∧ none ∈ seriesOf d2 "RHUM")
        ∨ none ∈ seriesOf d2 "SRAD" := by
      rcases hbad with ⟨i, hlt, hi⟩ | ⟨i, hlt, hi⟩ | hd | hd | hd
      · exfalso
        have hmaxi : (seriesOf d2 "TMAX")[i]? = some ((seriesOf d2 "TMAX")[i]) :=
          List.getElem?_eq_getElem hlt
        have hz : ((seriesOf d2 "TMIN").zip (seriesOf d2 "TMAX"))[i]?
            = some (none, (seriesOf d2 "TMAX")[i]) :=
          List.getElem?_zip_eq_some.mpr ⟨hi, hmaxi⟩
        have hv := List.all_eq_true.mp hle _ (List.getElem?_mem hz)
        rw [valLE_none_left] at hv
        exact Bool.false_ne_true hv
      · exfalso
        have hmini : (seriesOf d2 "TMIN")[i]? = some ((seriesOf d2 "TMIN")[i]) :=
          List.getElem?_eq_getElem hlt
        have hz : ((seriesOf d2 "TMIN").zip (seriesOf d2 "TMAX"))[i]?
            = some ((seriesOf d2 "TMIN")[i], none) :=
          List.getElem?_zip_eq_some.mpr ⟨hmini, hi⟩
        have hv := List.all_eq_true.mp hle _ (List.getElem?_mem hz)
        rw [valLE_none_right] at hv
        exact Bool.false_ne_true hv
      · exact Or.inl hd
      · exact Or.inr (Or.inl hd)
      · exact Or.inr (Or.inr hd)
    by_cases hrc : d2.hasCol "RHUM" = true
    · have hrhumS : getSeries d2 "RHUM" = .ok (seriesOf d2 "RHUM") :=
        getSeries_of_isNum (hrhum hrc)
      cases hra : (seriesOf d2 "RHUM").all rhumCell with
      | false =>
        refine ⟨rhumMsg, ?_⟩
        simp only [qualityControl, htminS, htmaxS, hle, eq_self_iff_true, if_true,
          hrc, hrhumS, hra, Bool.false_eq_true, if_false]
      | true =>
        have hd2 : none ∈ seriesOf d2 "RAIN" ∨ none ∈ seriesOf d2 "SRAD" := by
          rcases hrest with hd | ⟨_, hd⟩ | hd
          · exact Or.inl hd
          · exfalso
            have := all_false_of_mem hd (by rfl : rhumCell none = false)
            rw [hra] at this
            exact Bool.true_eq_false.mp this
          · exact Or.inr hd
        obtain ⟨rule, hqr⟩ := hqcRain hd2
        refine ⟨rule, ?_⟩
        simp only [qualityControl, htminS, htmaxS, hle, eq_self_iff_true, if_true,
          hrc, hrhumS, hra, hqr]
    · have hrcf : d2.hasCol "RHUM" = false := by
        cases hv : d2.hasCol "RHUM"
        · rfl
        · exact absurd hv hrc
      have hd2 : none ∈ seriesOf d2 "RAIN" ∨ none ∈ seriesOf d2 "SRAD" := by
        rcases hrest with hd | ⟨hcol, -⟩ | hd
        · exact Or.inl hd
        · exact absurd hcol hrc
        · exact Or.inr hd
      obtain ⟨rule, hqr⟩ := hqcRain hd2
      refine ⟨rule, ?_⟩
      simp only [qualityControl, htminS, htmaxS, hle, eq_self_iff_true, if_true,
        hrcf, Bool.false_eq_true, if_false, hqr]

/-- C10 witness: `exNA` (a missing value in its RAIN column, all bounds
otherwise satisfiable) fails at the quality-control step. -/
theorem build_na_fails_qc_witness :
    ∃ rule, Weather.build exNA [] 0 0 0 = .error (.qualityControl rule) :=
  build_na_fails_qc exNA exNA [] 0 0 0 rfl rfl (by decide) (by decide)
    (Or.inr (Or.inr (Or.inl (by decide))))

/-- C7: supplying a simulation start date to `write` filters the station's
records to exactly the rows whose date is ≥ the start date; the truncation
lands on the station object itself (the station that comes back from the
call — the in-place reassignment of `self.data` at line 177 — differs from
the input only in its truncated records), so a second `write` with another
start date operates on the already-truncated records and the truncations
compound. -/
theorem write_truncation_in_place (w : Weather) (d : Date) (l : List Date)
    (hidx : w.data.index = .dates l) :
    (w.write (some d)).1
      = { w with data := w.data.filterRows (fun x => Date.le d x) }
    ∧ ((w.write (some d)).1).data.index
      = .dates (l.filter (fun x => Date.le d x))
    ∧ ∀ d₂ : Date, (((w.write (some d)).1).write (some d₂)).1.data.index
        = .dates (l.filter (fun x => Date.le d x && Date.le d₂ x)) := by
  have h1 : (w.write (some d)).1
      = { w with data := w.data.filterRows (fun x => Date.le d x) } := rfl
  refine ⟨h1, ?_, ?_⟩
  · rw [h1]
    exact filterRows_index _ hidx
  · intro d₂
    rw [h1]
    have h2 : (({ w with data := w.data.filterRows (fun x => Date.le d x) }
          : Weather).write (some d₂)).1
        = { w with data := ((w.data.filterRows (fun x => Date.le d x)).filterRows
              (fun x => Date.le d₂ x)) } := rfl
    rw [h2]
    have h3 := filterRows_index (fun x => Date.le d₂ x)
      (filterRows_index (fun x => Date.le d x) hidx)
    rw [h3, List.filter_filter]
    congr 1
    apply List.filter_congr
    intro a _
    exact Bool.and_comm _ _

/-- C7 witness: truncating `exSorted` at 2000-01-02 keeps the rows dated
2000-01-02 and 2001-03-05 on the station itself; a second truncation at
2001-03-05 compounds, leaving only the last row. -/
theorem write_truncation_in_place_witness :
    ((exSorted.write (some dJan2)).1).data.index = .dates [dJan2, dNext]
    ∧ ((((exSorted.write (some dJan2)).1).write (some dNext)).1).data.index
      = .dates [dNext] :=
  ⟨((write_truncation_in_place exSorted dJan2 [dJan1, dJan2, dNext] rfl).2.1).trans
      (by decide),
   ((write_truncation_in_place exSorted dJan2 [dJan1, dJan2, dNext] rfl).2.2
      dNext).trans (by decide)⟩

/-- C6: for every station whose institute code is at most 4 characters (as
construction guarantees: build always leaves exactly `"WSTA"`) and all of
whose record dates carry four-digit years, each produced file's name is
`{first 4 chars of InstituteCode}{last 2 digits of the year}{"01"}{".WTH"}`.
The theorem quantifies over every records table, so the `"01"` component is
the fixed literal of line 181, never derived from the month of the year's
first record. -/
theorem write_filename_format (w : Weather) (l : List Date)
    (hidx : w.data.index = .dates l)
    (hINSI : w.INSI.take 4 = w.INSI)
    (hy : ∀ d ∈ l, (Nat.toDigits 10 d.year).length = 4) :
    ((w.write none).2).map (·.filename)
      = (uniqueKeepFirst (l.map (·.year))).map (fun y =>
          w.INSI.take 4
            ++ (Nat.toDigits 10 y).drop ((Nat.toDigits 10 y).length - 2)
            ++ "01".data ++ ".WTH".data) := by
  have hind : w.data.indexDates = l := by
    unfold DataFrame.indexDates
    rw [hidx]
  have hw : (w.write none).2 = (uniqueKeepFirst (l.map (·.year))).map (fun year =>
      ({ filename := w.INSI ++ (Nat.toDigits 10 year).drop 2 ++ "01".data
            ++ ".WTH".data
         rows := (w.data.filterRows (fun x => x.year == year)).rowsOf } : OutFile)) := by
    simp only [Weather.write]
    rw [hind]
  rw [hw, List.map_map]
  apply List.map_congr_left
  intro y hymem
  have hyl : y ∈ l.map (·.year) := (uniqueKeepFirst_mem _ _).mp hymem
  obtain ⟨dd, hdd, rfl⟩ := List.mem_map.mp hyl
  have h4 := hy dd hdd
  simp only [Function.comp]
  rw [hINSI, h4]

/-- C6 witness: the two-year station `exSorted` (institute code `"WSTA"`,
years 2000 and 2001) produces files named `WSTA0001.WTH` and
`WSTA0101.WTH`. -/
theorem write_filename_format_witness :
    ((exSorted.write none).2).map (·.filename)
      = ["WSTA0001.WTH".data, "WSTA0101.WTH".data] :=
  (write_filename_format exSorted [dJan1, dJan2, dNext] rfl rfl (by decide)).trans
    (by decide)

/-- C5 counterexample: the two-year station `exUnsorted` stores 2000-01-02
before 2000-01-01; the data lines of the year-2000 file come out in that
stored order, which is not ascending — `write` never sorts. -/
theorem write_row_order_cex :
    ((exUnsorted.write none).2).map (fun f => f.rows.map (·.1))
      = [[dJan2, dJan1], [dNext]]
    ∧ ¬ List.Pairwise (fun a b => Date.le a b = true) [dJan2, dJan1] :=
  ⟨rfl, by decide⟩

/-- C5 (amended): a station whose records span exactly two calendar years
produces exactly two output files; each file holds exactly its year's rows in
the records' STORED order — which is ascending when the records are sorted,
but `write` does not sort, so an unsorted table yields unsorted data lines. -/
theorem write_year_partition (w : Weather) (l : List Date)
    (hidx : w.data.index = .dates l)
    (hcard : (l.map (·.year)).toFinset.card = 2) :
    ((w.write none).2).length = 2
    ∧ (∀ f ∈ (w.write none).2, ∃ y ∈ l.map (·.year),
        f.rows.map (·.1) = l.filter (fun x => x.year == y)
        ∧ ∀ r ∈ f.rows, r.1.year = y)
    ∧ (List.Pairwise (fun a b => Date.le a b = true) l →
        ∀ f ∈ (w.write none).2, List.Pairwise (fun a b => Date.le a b = true)
          (f.rows.map (·.1))) := by
  have hind : w.data.indexDates = l := by
    unfold DataFrame.indexDates
    rw [hidx]
  have hw : (w.write none).2 = (uniqueKeepFirst (l.map (·.year))).map (fun year =>
      ({ filename := w.INSI ++ (Nat.toDigits 10 year).drop 2 ++ "01".data
            ++ ".WTH".data
         rows := (w.data.filterRows (fun x => x.year == year)).rowsOf } : OutFile)) := by
    simp only [Weather.write]
    rw [hind]
  have hrows : ∀ y : Nat,
      ((w.data.filterRows (fun x => x.year == y)).rowsOf).map (·.1)
        = l.filter (fun x => x.year == y) := by
    intro y
    rw [rowsOf_map_fst]
    exact filterRows_indexDates _ hidx
  refine ⟨?_, ?_, ?_⟩
  · rw [hw, List.length_map, uniqueKeepFirst_length, hcard]
  · intro f hf
    rw [hw] at hf
    obtain ⟨y, hymem, rfl⟩ := List.mem_map.mp hf
    refine ⟨y, (uniqueKeepFirst_mem _ _).mp hymem, hrows y, ?_⟩
    intro r hr
    have hmem : r.1 ∈ l.filter (fun x => x.year == y) := by
      rw [← hrows y]
      exact List.mem_map.mpr ⟨r, hr, rfl⟩
    exact beq_iff_eq.mp (List.mem_filter.mp hmem).2
  · intro hsort f hf
    rw [hw] at hf
    obtain ⟨y, hymem, rfl⟩ := List.mem_map.mp hf
    rw [hrows y]
    exact List.Pairwise.sublist (List.filter_sublist _) hsort

/-- C5 witness: the sorted two-year station `exSorted` yields exactly two
files, and the first one's data lines are in ascending date order. -/
theorem write_year_partition_witness :
    ((exSorted.write none).2).length = 2
    ∧ List.Pairwise (fun a b => Date.le a b = true)
        ((((exSorted.write none).2).getD 0 default).rows.map (·.1)) :=
  ⟨(write_year_partition exSorted [dJan1, dJan2, dNext] rfl (by decide)).1,
   (write_year_partition exSorted [dJan1, dJan2, dNext] rfl (by decide)).2.2
     (by decide) _ (by decide)⟩

end DSSAT
